import Mathlib

/-
Verification of the orientation-math core of the device-orientation demo.

The embedding models JavaScript numbers as real numbers: `Math.sin`,
`Math.cos`, `Math.sqrt`, `Math.atan2` become their exact real counterparts,
`Math.round` becomes `jsRound` (floor of x + 1/2, the ECMAScript rounding
for non-negative inputs and for all reals without signed zeros), and the
JS remainder operator `%` becomes `Int.tmod` (remainder with the sign of
the dividend, as ECMAScript specifies).  `Math.atan2(0, 0) = 0` per
ECMA-262, which the real-valued `atan2` below reproduces.
-/

open Real

namespace DeviceOrientation

noncomputable section

/-- Three-component vector, mirroring `type Vector3 = [number, number, number]`
(`src/src/mathTypes.ts`).  Fields `x`, `y`, `z` are the components 0, 1, 2. -/
@[ext]
structure Vector3 where
  x : ℝ
  y : ℝ
  z : ℝ

/-- Row-major 3x3 matrix, mirroring `type Matrix3x3 = [Vector3, Vector3, Vector3]`. -/
@[ext]
structure Matrix3x3 where
  r0 : Vector3
  r1 : Vector3
  r2 : Vector3

/-- Model of `dotProduct` from `src/src/mathTypes.ts`. -/
def dotProduct (v1 v2 : Vector3) : ℝ :=
  v1.x * v2.x + v1.y * v2.y + v1.z * v2.z

/-- Model of `multiplyMatrixVector` from `src/src/mathTypes.ts`: each component of the
result is the dot product of the corresponding matrix row with the vector. -/
def multiplyMatrixVector (matrix : Matrix3x3) (vector : Vector3) : Vector3 :=
  ⟨dotProduct matrix.r0 vector,
   dotProduct matrix.r1 vector,
   dotProduct matrix.r2 vector⟩

/-- Column `c = 0` of a matrix, as gathered by the inner loop of
`multiplyMatrices`. -/
def column0 (B : Matrix3x3) : Vector3 := ⟨B.r0.x, B.r1.x, B.r2.x⟩

/-- Column `c = 1` of a matrix. -/
def column1 (B : Matrix3x3) : Vector3 := ⟨B.r0.y, B.r1.y, B.r2.y⟩

/-- Column `c = 2` of a matrix. -/
def column2 (B : Matrix3x3) : Vector3 := ⟨B.r0.z, B.r1.z, B.r2.z⟩

/-- Model of `multiplyMatrices` from `src/src/mathTypes.ts`:
`result[r][c] = dotProduct (row r of A) (column c of B)`. -/
def multiplyMatrices (A B : Matrix3x3) : Matrix3x3 :=
  ⟨⟨dotProduct A.r0 (column0 B), dotProduct A.r0 (column1 B), dotProduct A.r0 (column2 B)⟩,
   ⟨dotProduct A.r1 (column0 B), dotProduct A.r1 (column1 B), dotProduct A.r1 (column2 B)⟩,
   ⟨dotProduct A.r2 (column0 B), dotProduct A.r2 (column1 B), dotProduct A.r2 (column2 B)⟩⟩

/-- Determinant of a 3x3 matrix (cofactor expansion along the first row);
used to state the orthonormality postcondition of the spec. -/
def det3 (m : Matrix3x3) : ℝ :=
  m.r0.x * (m.r1.y * m.r2.z - m.r1.z * m.r2.y)
    - m.r0.y * (m.r1.x * m.r2.z - m.r1.z * m.r2.x)
    + m.r0.z * (m.r1.x * m.r2.y - m.r1.y * m.r2.x)

/-- Model of `buildRotationMatrix` from `src/src/mathTypes.ts` (lines 58-72).  The
parameters are named `alphaRad`, `betaRad`, `gammaRad` in the source and are
used directly as radian arguments of `Math.cos` / `Math.sin`; there is no
degree-to-radian conversion inside this function. -/
def buildRotationMatrix (alphaRad betaRad gammaRad : ℝ) : Matrix3x3 :=
  ⟨⟨cos alphaRad * cos gammaRad - sin alphaRad * sin betaRad * sin gammaRad,
    -(cos betaRad * sin alphaRad),
    cos gammaRad * sin alphaRad * sin betaRad + cos alphaRad * sin gammaRad⟩,
   ⟨cos gammaRad * sin alphaRad + cos alphaRad * sin betaRad * sin gammaRad,
    cos alphaRad * cos betaRad,
    sin alphaRad * sin gammaRad - cos alphaRad * cos gammaRad * sin betaRad⟩,
   ⟨-(cos betaRad * sin gammaRad),
    sin betaRad,
    cos betaRad * cos gammaRad⟩⟩

/-- Real-valued model of ECMAScript `Math.atan2(y, x)`: the angle of the
point `(x, y)` in `(-pi, pi]`, with `atan2 0 0 = 0` (ECMA-262 returns `+0`
for `atan2(+0, +0)`). -/
def atan2 (y x : ℝ) : ℝ :=
  if 0 < x then arctan (y / x)
  else if x < 0 then
    (if 0 ≤ y then arctan (y / x) + π else arctan (y / x) - π)
  else if 0 < y then π / 2
  else if y < 0 then -(π / 2)
  else 0

/-- Result record of `calculateOrientationAngles`. -/
structure ExtractedAngles where
  heading : ℝ
  elevation : ℝ
  roll : ℝ

/-- Model of `calculateOrientationAngles` from `src/unnamed/part_003` (lines 56-82,
identical in `src/unnamed/part_002`):
heading from `atan2(north.x, north.y)` shifted into `[0, 360)`,
elevation from `atan2(north.z, sqrt(north.x^2 + north.y^2))`,
roll from `atan2(-east.z, sqrt(east.x^2 + east.y^2))`, all in degrees. -/
def calculateOrientationAngles (northVector eastVector : Vector3) : ExtractedAngles :=
  let heading0 := atan2 northVector.x northVector.y * (180 / π)
  let heading := if heading0 < 0 then heading0 + 360 else heading0
  let elevation :=
    atan2 northVector.z (sqrt (northVector.x ^ 2 + northVector.y ^ 2)) * (180 / π)
  let roll :=
    atan2 (-eastVector.z) (sqrt (eastVector.x ^ 2 + eastVector.y ^ 2)) * (180 / π)
  ⟨heading, elevation, roll⟩

/-- Model of `normalizeHeadingRange` from `src/unnamed/part_003` (lines 37-43):
subtract 360 when the heading exceeds 180, otherwise return it unchanged. -/
def normalizeHeadingRange (heading : ℝ) : ℝ :=
  if heading > 180 then heading - 360 else heading

/-- ECMAScript `Math.round` on the reals: floor of `x + 1/2`
(rounds half toward positive infinity). -/
def jsRound (x : ℝ) : ℤ := ⌊x + 1 / 2⌋

/-- The eight-point compass rose of `getCompassDirection`. -/
def compassDirections : List String := ["N", "NE", "E", "SE", "S", "SW", "W", "NW"]

/-- Model of `getCompassDirection` from `src/unnamed/part_003` (lines 29-33, identical
in `src/src/main.ts`): `directions[Math.round(heading / 45) % 8]`.  The JS `%`
keeps the sign of the dividend (`Int.tmod`); a negative index reads past the
array and yields `undefined`, modelled as `none`. -/
def getCompassDirection (heading : ℝ) : Option String :=
  let index := Int.tmod (jsRound (heading / 45)) 8
  if 0 ≤ index then compassDirections.get? index.toNat else none

/-- The heading rotation of `buildRotationMatrixFromAngles`
(`src/src/mathTypes.ts` lines 85-92): rotation around the Y-axis built from
`ch = cos(-h)`, `sh = sin(-h)`. -/
def headingRotation (h : ℝ) : Matrix3x3 :=
  ⟨⟨cos (-h), 0, sin (-h)⟩,
   ⟨0, 1, 0⟩,
   ⟨-sin (-h), 0, cos (-h)⟩⟩

/-- The elevation rotation of `buildRotationMatrixFromAngles`
(lines 94-101): rotation around the X-axis from `ce = cos e`, `se = sin e`. -/
def elevationRotation (e : ℝ) : Matrix3x3 :=
  ⟨⟨1, 0, 0⟩,
   ⟨0, cos e, -sin e⟩,
   ⟨0, sin e, cos e⟩⟩

/-- The roll rotation of `buildRotationMatrixFromAngles` (lines 103-110):
rotation around the Z-axis from `cr = cos(-r)`, `sr = sin(-r)`. -/
def rollRotation (r : ℝ) : Matrix3x3 :=
  ⟨⟨cos (-r), -sin (-r), 0⟩,
   ⟨sin (-r), cos (-r), 0⟩,
   ⟨0, 0, 1⟩⟩

/-- Model of `buildRotationMatrixFromAngles` from `src/src/mathTypes.ts` (lines
78-117): converts the three angles from degrees to radians, builds the three
elementary rotations, and returns
`R = multiplyMatrices (multiplyMatrices Rh Re) Rr`. -/
def buildRotationMatrixFromAngles (heading elevation roll : ℝ) : Matrix3x3 :=
  multiplyMatrices
    (multiplyMatrices
      (headingRotation (heading * (π / 180)))
      (elevationRotation (elevation * (π / 180))))
    (rollRotation (roll * (π / 180)))

/-- Tolerance predicate used by the spec's orthonormality postcondition:
each row has unit length, the rows are mutually orthogonal, and the
determinant is +1, all within `tol`. -/
def orthonormalWithin (m : Matrix3x3) (tol : ℝ) : Prop :=
  |dotProduct m.r0 m.r0 - 1| ≤ tol ∧
  |dotProduct m.r1 m.r1 - 1| ≤ tol ∧
  |dotProduct m.r2 m.r2 - 1| ≤ tol ∧
  |dotProduct m.r0 m.r1| ≤ tol ∧
  |dotProduct m.r0 m.r2| ≤ tol ∧
  |dotProduct m.r1 m.r2| ≤ tol ∧
  |det3 m - 1| ≤ tol

/-- Definition following the spec's words for the contract of §4.1
(`buildRotationMatrix(alphaDeg, betaDeg, gammaDeg)`): converts degrees to
radians and computes the nine entries as products/sums of sines and cosines
of the converted angles.  Written independently of `buildRotationMatrix` to
compare the two. -/
def buildRotationMatrixDegrees (alphaDeg betaDeg gammaDeg : ℝ) : Matrix3x3 :=
  ⟨⟨cos (alphaDeg * (π / 180)) * cos (gammaDeg * (π / 180)) -
      sin (alphaDeg * (π / 180)) * sin (betaDeg * (π / 180)) * sin (gammaDeg * (π / 180)),
    -(cos (betaDeg * (π / 180)) * sin (alphaDeg * (π / 180))),
    cos (gammaDeg * (π / 180)) * sin (alphaDeg * (π / 180)) * sin (betaDeg * (π / 180)) +
      cos (alphaDeg * (π / 180)) * sin (gammaDeg * (π / 180))⟩,
   ⟨cos (gammaDeg * (π / 180)) * sin (alphaDeg * (π / 180)) +
      cos (alphaDeg * (π / 180)) * sin (betaDeg * (π / 180)) * sin (gammaDeg * (π / 180)),
    cos (alphaDeg * (π / 180)) * cos (betaDeg * (π / 180)),
    sin (alphaDeg * (π / 180)) * sin (gammaDeg * (π / 180)) -
      cos (alphaDeg * (π / 180)) * cos (gammaDeg * (π / 180)) * sin (betaDeg * (π / 180))⟩,
   ⟨-(cos (betaDeg * (π / 180)) * sin (gammaDeg * (π / 180))),
    sin (betaDeg * (π / 180)),
    cos (betaDeg * (π / 180)) * cos (gammaDeg * (π / 180))⟩⟩

/-- Definition following the spec's words for §4.5: the same three elementary
rotations composed in the order `R = R(roll) * R(elevation) * R(heading)`
with `R(roll)` leftmost, to compare with the source's composition order. -/
def rollLeftmostComposition (heading elevation roll : ℝ) : Matrix3x3 :=
  multiplyMatrices
    (multiplyMatrices
      (rollRotation (roll * (π / 180)))
      (elevationRotation (elevation * (π / 180))))
    (headingRotation (heading * (π / 180)))

/-! ### Helper lemmas -/

/-- The `atan2` of any point on or right of the vertical axis lies in
`[-pi/2, pi/2]`; in particular this covers every second argument produced by
`Math.sqrt`. -/
lemma atan2_bounds_of_nonneg {y x : ℝ} (hx : 0 ≤ x) :
    -(π / 2) ≤ atan2 y x ∧ atan2 y x ≤ π / 2 := by
  have hπ := pi_pos
  unfold atan2
  split_ifs with h1 h2 h3 h4 h5
  · exact ⟨(neg_pi_div_two_lt_arctan _).le, (arctan_lt_pi_div_two _).le⟩
  · exact absurd h2 (not_lt.mpr hx)
  · exact absurd h2 (not_lt.mpr hx)
  · constructor <;> linarith
  · constructor <;> linarith
  · constructor <;> linarith

/-- Unfolding lemma for the elevation component of the extractor. -/
lemma elevation_formula (north east : Vector3) :
    (calculateOrientationAngles north east).elevation =
      atan2 north.z (sqrt (north.x ^ 2 + north.y ^ 2)) * (180 / π) := by
  simp [calculateOrientationAngles]

/-- Unfolding lemma for the roll component of the extractor. -/
lemma roll_formula (north east : Vector3) :
    (calculateOrientationAngles north east).roll =
      atan2 (-east.z) (sqrt (east.x ^ 2 + east.y ^ 2)) * (180 / π) := by
  simp [calculateOrientationAngles]

/-- Converting an angle in `[-pi/2, pi/2]` to degrees lands in `[-90, 90]`. -/
lemma deg_bounds {t : ℝ} (h1 : -(π / 2) ≤ t) (h2 : t ≤ π / 2) :
    -90 ≤ t * (180 / π) ∧ t * (180 / π) ≤ 90 := by
  have hπ := pi_pos
  have hc : (0:ℝ) ≤ 180 / π := le_of_lt (by positivity)
  have e1 : -(π / 2) * (180 / π) = -90 := by field_simp; ring
  have e2 : (π / 2) * (180 / π) = 90 := by field_simp; ring
  constructor
  · have m := mul_le_mul_of_nonneg_right h1 hc
    rw [e1] at m; exact m
  · have m := mul_le_mul_of_nonneg_right h2 hc
    rw [e2] at m; exact m

/-! ### Claims -/

/-- Claim C7: for every heading in `[0, 360)`, `normalizeHeadingRange` maps it
into `(-180, 180]`, subtracting 360 exactly when the input exceeds 180 and
returning it unchanged otherwise; concretely `normalizeHeadingRange 270 = -90`,
`normalizeHeadingRange 90 = 90`, `normalizeHeadingRange 0 = 0`, and
`normalizeHeadingRange 180 = 180`. -/
theorem normalizeHeadingRange_maps_into_range :
    (∀ heading : ℝ, 0 ≤ heading → heading < 360 →
      -180 < normalizeHeadingRange heading ∧ normalizeHeadingRange heading ≤ 180 ∧
      (180 < heading → normalizeHeadingRange heading = heading - 360) ∧
      (heading ≤ 180 → normalizeHeadingRange heading = heading)) ∧
    normalizeHeadingRange 270 = -90 ∧ normalizeHeadingRange 90 = 90 ∧
    normalizeHeadingRange 0 = 0 ∧ normalizeHeadingRange 180 = 180 := by
  refine ⟨fun heading h0 h1 => ?_, by norm_num [normalizeHeadingRange],
    by norm_num [normalizeHeadingRange], by norm_num [normalizeHeadingRange],
    by norm_num [normalizeHeadingRange]⟩
  unfold normalizeHeadingRange
  split_ifs with hgt
  · exact ⟨by linarith, by linarith, fun _ => rfl, fun hle => absurd hgt (not_lt.mpr hle)⟩
  · push_neg at hgt
    exact ⟨by linarith, hgt, fun hc => absurd hc (not_lt.mpr hgt), fun _ => rfl⟩

/-- Witness for C7 at the concrete heading 270. -/
theorem normalizeHeadingRange_maps_into_range_witness :
    (0:ℝ) ≤ 270 ∧ (270:ℝ) < 360 ∧
    (-180 < normalizeHeadingRange 270 ∧ normalizeHeadingRange 270 ≤ 180 ∧
      ((180:ℝ) < 270 → normalizeHeadingRange 270 = 270 - 360) ∧
      ((270:ℝ) ≤ 180 → normalizeHeadingRange 270 = 270)) :=
  ⟨by norm_num, by norm_num,
    normalizeHeadingRange_maps_into_range.1 270 (by norm_num) (by norm_num)⟩

/-- Claim C10: `normalizeHeadingRange` is idempotent on `[0, 360)`. -/
theorem normalizeHeadingRange_idempotent (heading : ℝ)
    (h0 : 0 ≤ heading) (h1 : heading < 360) :
    normalizeHeadingRange (normalizeHeadingRange heading) =
      normalizeHeadingRange heading := by
  simp only [normalizeHeadingRange]
  split_ifs <;> linarith

/-- Witness for C10 at the concrete heading 270. -/
theorem normalizeHeadingRange_idempotent_witness :
    (0:ℝ) ≤ 270 ∧ (270:ℝ) < 360 ∧
    normalizeHeadingRange (normalizeHeadingRange 270) = normalizeHeadingRange 270 :=
  ⟨by norm_num, by norm_num, normalizeHeadingRange_idempotent 270 (by norm_num) (by norm_num)⟩

/-- Claim C9: for every pair of input vectors, the elevation and roll returned
by `calculateOrientationAngles` lie in `[-90, 90]`, because the second
argument of each `atan2` is a non-negative square root. -/
theorem elevation_roll_in_quarter_range (north east : Vector3) :
    -90 ≤ (calculateOrientationAngles north east).elevation ∧
    (calculateOrientationAngles north east).elevation ≤ 90 ∧
    -90 ≤ (calculateOrientationAngles north east).roll ∧
    (calculateOrientationAngles north east).roll ≤ 90 := by
  have h1 := atan2_bounds_of_nonneg (y := north.z) (sqrt_nonneg (north.x ^ 2 + north.y ^ 2))
  have h2 := atan2_bounds_of_nonneg (y := -east.z) (sqrt_nonneg (east.x ^ 2 + east.y ^ 2))
  have d1 := deg_bounds h1.1 h1.2
  have d2 := deg_bounds h2.1 h2.2
  rw [elevation_formula, roll_formula]
  exact ⟨d1.1, d1.2, d2.1, d2.2⟩

/-- Helper: `sqrt 25 = 5`. -/
lemma sqrt_twentyfive : sqrt (25:ℝ) = 5 := by
  rw [show (25:ℝ) = 5 ^ 2 by norm_num, sqrt_sq (by norm_num : (0:ℝ) ≤ 5)]

/-- Helper: `atan2 5 5` is `pi / 4`. -/
lemma atan2_five_five : atan2 5 5 = π / 4 := by
  unfold atan2
  rw [if_pos (by norm_num : (0:ℝ) < 5)]
  norm_num [arctan_one]

/-- Helper: converting `pi / 4` to degrees gives 45. -/
lemma pi_div_four_deg : (π / 4) * (180 / π) = 45 := by
  field_simp; ring

/-- Claim C8: elevation is `atan2(z, sqrt(x^2 + y^2))` of the north vector in
degrees, and the triples (5,0,5), (0,5,5), (3,4,5) all give elevation 45
(exactly, hence within 1e-6), independent of the east vector. -/
theorem elevation_invariance :
    (∀ north east : Vector3, (calculateOrientationAngles north east).elevation =
      atan2 north.z (sqrt (north.x ^ 2 + north.y ^ 2)) * (180 / π)) ∧
    ∀ east : Vector3,
      (calculateOrientationAngles ⟨5, 0, 5⟩ east).elevation = 45 ∧
      (calculateOrientationAngles ⟨0, 5, 5⟩ east).elevation = 45 ∧
      (calculateOrientationAngles ⟨3, 4, 5⟩ east).elevation = 45 := by
  refine ⟨elevation_formula, fun east => ?_⟩
  refine ⟨?_, ?_, ?_⟩ <;>
    rw [elevation_formula] <;>
    simp only
  · rw [show ((5:ℝ) ^ 2 + 0 ^ 2) = 25 by norm_num, sqrt_twentyfive, atan2_five_five,
      pi_div_four_deg]
  · rw [show ((0:ℝ) ^ 2 + 5 ^ 2) = 25 by norm_num, sqrt_twentyfive, atan2_five_five,
      pi_div_four_deg]
  · rw [show ((3:ℝ) ^ 2 + 4 ^ 2) = 25 by norm_num, sqrt_twentyfive, atan2_five_five,
      pi_div_four_deg]

/-- Claim C3 (behavior of the code at gimbal lock): for vertical input vectors
(horizontal radius exactly 0) the extractor returns the finite angles
heading = 0 and roll = -90, never a NaN sentinel: `Math.atan2(0, 0)` is 0 in
ECMAScript, and the real-valued model reproduces that. -/
theorem gimbal_lock_returns_finite_angles :
    (calculateOrientationAngles ⟨0, 0, -1⟩ ⟨0, 0, 1⟩).heading = 0 ∧
    (calculateOrientationAngles ⟨0, 0, -1⟩ ⟨0, 0, 1⟩).roll = -90 := by
  constructor
  · simp [calculateOrientationAngles, atan2]
  · rw [roll_formula]
    simp only
    rw [show ((0:ℝ) ^ 2 + 0 ^ 2) = 0 by norm_num, sqrt_zero]
    unfold atan2
    rw [if_neg (by norm_num), if_neg (by norm_num), if_neg (by norm_num),
      if_pos (by norm_num : (-1:ℝ) < 0)]
    field_simp
    ring

/-- Helper: evaluate `getCompassDirection` at a heading once the rounded
index is known. -/
lemma getCompassDirection_eval {heading : ℝ} {n : ℤ} (h : jsRound (heading / 45) = n) :
    getCompassDirection heading =
      (if 0 ≤ Int.tmod n 8 then compassDirections.get? (Int.tmod n 8).toNat else none) := by
  simp only [getCompassDirection, h]

/-- Claim C6 counterexample: `getCompassDirection 44` is `"NE"`, not `"N"`
(`Math.round(44 / 45) = 1`, so the boundary of the `"N"` sector is 22.5, not
45). -/
theorem getCompassDirection_44_counterexample :
    getCompassDirection 44 = some "NE" ∧ getCompassDirection 44 ≠ some "N" := by
  have h : jsRound ((44:ℝ) / 45) = 1 := by
    unfold jsRound
    rw [Int.floor_eq_iff]
    norm_num
  rw [getCompassDirection_eval h]
  exact ⟨by decide, by decide⟩

/-- Claim C6 amended: the compass label is `directions[round(heading/45) % 8]`
over {N, NE, E, SE, S, SW, W, NW}; heading 0 gives "N", 22 gives "N" (the "N"
sector ends at 22.5), 44 and 46 give "NE", 90 gives "E", and 359 gives "N"
(wrap-around via the modulo 8). -/
theorem getCompassDirection_sectors :
    getCompassDirection 0 = some "N" ∧ getCompassDirection 22 = some "N" ∧
    getCompassDirection 44 = some "NE" ∧ getCompassDirection 46 = some "NE" ∧
    getCompassDirection 90 = some "E" ∧ getCompassDirection 359 = some "N" := by
  have h0 : jsRound ((0:ℝ) / 45) = 0 := by
    unfold jsRound; rw [Int.floor_eq_iff]; norm_num
  have h22 : jsRound ((22:ℝ) / 45) = 0 := by
    unfold jsRound; rw [Int.floor_eq_iff]; norm_num
  have h44 : jsRound ((44:ℝ) / 45) = 1 := by
    unfold jsRound; rw [Int.floor_eq_iff]; norm_num
  have h46 : jsRound ((46:ℝ) / 45) = 1 := by
    unfold jsRound; rw [Int.floor_eq_iff]; norm_num
  have h90 : jsRound ((90:ℝ) / 45) = 2 := by
    unfold jsRound; rw [Int.floor_eq_iff]; norm_num
  have h359 : jsRound ((359:ℝ) / 45) = 8 := by
    unfold jsRound; rw [Int.floor_eq_iff]; norm_num
  refine ⟨?_, ?_, ?_, ?_, ?_, ?_⟩
  · rw [getCompassDirection_eval h0]; decide
  · rw [getCompassDirection_eval h22]; decide
  · rw [getCompassDirection_eval h44]; decide
  · rw [getCompassDirection_eval h46]; decide
  · rw [getCompassDirection_eval h90]; decide
  · rw [getCompassDirection_eval h359]; decide

/-- The composition `Rh * Re * Rr` of the three elementary rotations at the
given radian angles; `buildRotationMatrixFromAngles` is this composition at
the degree-converted angles. -/
def composedMatrix (t1 t2 t3 : ℝ) : Matrix3x3 :=
  multiplyMatrices
    (multiplyMatrices (headingRotation t1) (elevationRotation t2))
    (rollRotation t3)

lemma buildRotationMatrixFromAngles_eq_composed (heading elevation roll : ℝ) :
    buildRotationMatrixFromAngles heading elevation roll =
      composedMatrix (heading * (π / 180)) (elevation * (π / 180)) (roll * (π / 180)) := rfl

/-- Exact orthonormality of the matrix built by `buildRotationMatrix`:
unit rows, orthogonal rows, determinant 1. -/
lemma buildRotationMatrix_exact (a b g : ℝ) :
    dotProduct (buildRotationMatrix a b g).r0 (buildRotationMatrix a b g).r0 = 1 ∧
    dotProduct (buildRotationMatrix a b g).r1 (buildRotationMatrix a b g).r1 = 1 ∧
    dotProduct (buildRotationMatrix a b g).r2 (buildRotationMatrix a b g).r2 = 1 ∧
    dotProduct (buildRotationMatrix a b g).r0 (buildRotationMatrix a b g).r1 = 0 ∧
    dotProduct (buildRotationMatrix a b g).r0 (buildRotationMatrix a b g).r2 = 0 ∧
    dotProduct (buildRotationMatrix a b g).r1 (buildRotationMatrix a b g).r2 = 0 ∧
    det3 (buildRotationMatrix a b g) = 1 := by
  have hA := sin_sq_add_cos_sq a
  have hB := sin_sq_add_cos_sq b
  have hG := sin_sq_add_cos_sq g
  simp only [buildRotationMatrix, dotProduct, det3]
  refine ⟨?_, ?_, ?_, ?_, ?_, ?_, ?_⟩
  · linear_combination ((cos a) ^ 2 + (sin a) ^ 2 * (sin b) ^ 2) * hG + (sin a) ^ 2 * hB + hA
  · linear_combination ((sin a) ^ 2 + (cos a) ^ 2 * (sin b) ^ 2) * hG + (cos a) ^ 2 * hB + hA
  · linear_combination (cos b) ^ 2 * hG + hB
  · linear_combination (cos a * sin a - cos a * sin a * (sin b) ^ 2) * hG -
      (cos a * sin a) * hB
  · linear_combination (sin a * cos b * sin b) * hG
  · linear_combination (-(cos a * cos b * sin b)) * hG
  · linear_combination hA +
      ((sin a) ^ 2 + (cos a * cos g - sin a * sin b * sin g) * (cos a * cos g) +
        (cos g * sin a * sin b + cos a * sin g) * (cos a * sin g)) * hB +
      ((cos a) ^ 2 + (sin a) ^ 2 * (sin b) ^ 2 + (sin a) ^ 2 * (cos b) ^ 2) * hG

/-- Exact orthonormality of the composed matrix `Rh * Re * Rr`:
unit rows, orthogonal rows, determinant 1. -/
lemma composedMatrix_exact (t1 t2 t3 : ℝ) :
    dotProduct (composedMatrix t1 t2 t3).r0 (composedMatrix t1 t2 t3).r0 = 1 ∧
    dotProduct (composedMatrix t1 t2 t3).r1 (composedMatrix t1 t2 t3).r1 = 1 ∧
    dotProduct (composedMatrix t1 t2 t3).r2 (composedMatrix t1 t2 t3).r2 = 1 ∧
    dotProduct (composedMatrix t1 t2 t3).r0 (composedMatrix t1 t2 t3).r1 = 0 ∧
    dotProduct (composedMatrix t1 t2 t3).r0 (composedMatrix t1 t2 t3).r2 = 0 ∧
    dotProduct (composedMatrix t1 t2 t3).r1 (composedMatrix t1 t2 t3).r2 = 0 ∧
    det3 (composedMatrix t1 t2 t3) = 1 := by
  have h1 := sin_sq_add_cos_sq (-t1)
  have h2 := sin_sq_add_cos_sq t2
  have h3 := sin_sq_add_cos_sq (-t3)
  simp only [composedMatrix, multiplyMatrices, headingRotation, elevationRotation,
    rollRotation, column0, column1, column2, dotProduct, det3]
  refine ⟨?_, ?_, ?_, ?_, ?_, ?_, ?_⟩
  · linear_combination ((cos (-t1)) ^ 2 + (sin (-t1)) ^ 2 * (sin t2) ^ 2) * h3 +
      (sin (-t1)) ^ 2 * h2 + h1
  · linear_combination (cos t2) ^ 2 * h3 + h2
  · linear_combination ((sin (-t1)) ^ 2 + (cos (-t1)) ^ 2 * (sin t2) ^ 2) * h3 +
      (cos (-t1)) ^ 2 * h2 + h1
  · linear_combination (sin (-t1) * sin t2 * cos t2) * h3
  · linear_combination
      (-(cos (-t1) * sin (-t1)) + cos (-t1) * sin (-t1) * (sin t2) ^ 2) * h3 +
      (cos (-t1) * sin (-t1)) * h2
  · linear_combination (cos (-t1) * sin t2 * cos t2) * h3
  · linear_combination h1 +
      ((sin (-t1)) ^ 2 +
        (cos (-t1) * cos (-t3) + sin (-t1) * sin t2 * sin (-t3)) * (cos (-t1) * cos (-t3)) +
        (cos (-t1) * sin (-t3) - sin (-t1) * sin t2 * cos (-t3)) * (cos (-t1) * sin (-t3))) * h2 +
      ((cos (-t1)) ^ 2 + (sin (-t1)) ^ 2 * (sin t2) ^ 2 +
        (sin (-t1)) ^ 2 * (cos t2) ^ 2) * h3

/-- Claim C1: for every real inputs, the matrix returned by
`buildRotationMatrix` has mutually orthogonal unit-length rows and
determinant +1 within 1e-6, and the same holds for every matrix returned by
`buildRotationMatrixFromAngles` (both hold exactly, hence within the
tolerance). -/
theorem rotation_matrices_orthonormal :
    (∀ alpha beta gamma : ℝ,
      orthonormalWithin (buildRotationMatrix alpha beta gamma) 1e-6) ∧
    (∀ heading elevation roll : ℝ,
      orthonormalWithin (buildRotationMatrixFromAngles heading elevation roll) 1e-6) := by
  have habs1 : ∀ u : ℝ, u = 1 → |u - 1| ≤ 1e-6 := by
    intro u hu; rw [hu]; norm_num
  have habs0 : ∀ u : ℝ, u = 0 → |u| ≤ 1e-6 := by
    intro u hu; rw [hu]; norm_num
  constructor
  · intro a b g
    obtain ⟨e1, e2, e3, e4, e5, e6, e7⟩ := buildRotationMatrix_exact a b g
    exact ⟨habs1 _ e1, habs1 _ e2, habs1 _ e3, habs0 _ e4, habs0 _ e5, habs0 _ e6, habs1 _ e7⟩
  · intro h e r
    rw [buildRotationMatrixFromAngles_eq_composed]
    obtain ⟨e1, e2, e3, e4, e5, e6, e7⟩ :=
      composedMatrix_exact (h * (π / 180)) (e * (π / 180)) (r * (π / 180))
    exact ⟨habs1 _ e1, habs1 _ e2, habs1 _ e3, habs0 _ e4, habs0 _ e5, habs0 _ e6, habs1 _ e7⟩

/-- The sine of 180 radians is negative (180 radians is about 4.07 radians
past 28 full turns, i.e. in the third quadrant), hence in particular not the
sine of 180 degrees. -/
lemma sin_180_radians_neg : sin (180 : ℝ) < 0 := by
  have hper := sin_add_nat_mul_two_pi (180 - 28 * (2 * π)) 28
  have harg : (180 - 28 * (2 * π)) + (28 : ℕ) * (2 * π) = (180 : ℝ) := by
    push_cast; ring
  rw [harg] at hper
  rw [hper]
  have hflip : (180 : ℝ) - 28 * (2 * π) = (180 - 28 * (2 * π) - π) + π := by ring
  rw [hflip, sin_add_pi, neg_lt, neg_zero]
  apply sin_pos_of_pos_of_lt_pi
  · nlinarith [pi_lt_d6]
  · nlinarith [pi_gt_d6, pi_lt_d6]

/-- Claim C2 counterexample: `buildRotationMatrix(0, 180, 0)` does not match
the degree-interpreting contract: its (2,1) entry is `sin 180` (radians),
which is negative, while the claimed entry `sin(180 * pi / 180) = sin pi` is
0.  So the arguments of `buildRotationMatrix` are not degrees. -/
theorem buildRotationMatrix_not_degrees :
    (buildRotationMatrix 0 180 0).r2.y ≠ (buildRotationMatrixDegrees 0 180 0).r2.y ∧
    (buildRotationMatrixDegrees 0 180 0).r2.y = 0 := by
  have hd : (buildRotationMatrixDegrees 0 180 0).r2.y = 0 := by
    simp only [buildRotationMatrixDegrees]
    rw [show (180 : ℝ) * (π / 180) = π by ring, sin_pi]
  refine ⟨?_, hd⟩
  rw [hd]
  simp only [buildRotationMatrix]
  exact ne_of_lt sin_180_radians_neg

/-- Claim C2 amended: `buildRotationMatrix` takes its three arguments in
radians (the source names them `alphaRad`, `betaRad`, `gammaRad`) and applies
sine and cosine to them directly; the degree-to-radian conversion is done by
the caller (`handleOrientation`), so the degree-interpreting contract of the
spec is realised by `buildRotationMatrix (alpha*pi/180) (beta*pi/180)
(gamma*pi/180)`, whose nine entries are exactly the Z-X'-Y'' products/sums of
sines and cosines of the converted angles. -/
theorem buildRotationMatrix_radians (alphaDeg betaDeg gammaDeg : ℝ) :
    buildRotationMatrix (alphaDeg * (π / 180)) (betaDeg * (π / 180)) (gammaDeg * (π / 180)) =
      buildRotationMatrixDegrees alphaDeg betaDeg gammaDeg := rfl

/-- Matrix-times-vector distributes over the matrix product: applying
`A * B` to a vector applies `B` first, then `A`. -/
lemma multiplyMatrixVector_assoc (A B : Matrix3x3) (v : Vector3) :
    multiplyMatrixVector (multiplyMatrices A B) v =
      multiplyMatrixVector A (multiplyMatrixVector B v) := by
  ext <;>
    simp only [multiplyMatrices, multiplyMatrixVector, dotProduct,
      column0, column1, column2] <;>
    ring

/-- Claim C5 counterexample: at heading = 90, elevation = 90, roll = 0 the
matrix built by the source differs from the
`R = R(roll) * R(elevation) * R(heading)` composition stated by the spec: the
(0,1) entries are -1 and 0 respectively. -/
theorem composition_order_counterexample :
    (buildRotationMatrixFromAngles 90 90 0).r0.y = -1 ∧
    (rollLeftmostComposition 90 90 0).r0.y = 0 ∧
    buildRotationMatrixFromAngles 90 90 0 ≠ rollLeftmostComposition 90 90 0 := by
  have e90 : (90 : ℝ) * (π / 180) = π / 2 := by ring
  have e0 : (0 : ℝ) * (π / 180) = 0 := by ring
  have hcode : (buildRotationMatrixFromAngles 90 90 0).r0.y = -1 := by
    simp only [buildRotationMatrixFromAngles, multiplyMatrices, headingRotation,
      elevationRotation, rollRotation, column0, column1, column2, dotProduct, e90, e0]
    simp [cos_pi_div_two, sin_pi_div_two]
  have hspec : (rollLeftmostComposition 90 90 0).r0.y = 0 := by
    simp only [rollLeftmostComposition, multiplyMatrices, headingRotation,
      elevationRotation, rollRotation, column0, column1, column2, dotProduct, e90, e0]
    simp [cos_pi_div_two, sin_pi_div_two]
  refine ⟨hcode, hspec, fun hcontra => ?_⟩
  rw [hcontra, hspec] at hcode
  norm_num at hcode

/-- Claim C5 amended: `buildRotationMatrixFromAngles` builds the three
elementary rotations (heading about Y, elevation about X, roll about Z) and
composes them in the fixed order `R = R(heading) * R(elevation) * R(roll)`
with `R(heading)` leftmost; equivalently, applying `R` to a vector applies
the roll rotation first, then elevation, then heading. -/
theorem composition_order_heading_leftmost :
    (∀ heading elevation roll : ℝ,
      buildRotationMatrixFromAngles heading elevation roll =
        multiplyMatrices
          (multiplyMatrices (headingRotation (heading * (π / 180)))
            (elevationRotation (elevation * (π / 180))))
          (rollRotation (roll * (π / 180)))) ∧
    (∀ (heading elevation roll : ℝ) (v : Vector3),
      multiplyMatrixVector (buildRotationMatrixFromAngles heading elevation roll) v =
        multiplyMatrixVector (headingRotation (heading * (π / 180)))
          (multiplyMatrixVector (elevationRotation (elevation * (π / 180)))
            (multiplyMatrixVector (rollRotation (roll * (π / 180))) v))) := by
  refine ⟨fun _ _ _ => rfl, fun heading elevation roll v => ?_⟩
  rw [show buildRotationMatrixFromAngles heading elevation roll =
      multiplyMatrices
        (multiplyMatrices (headingRotation (heading * (π / 180)))
          (elevationRotation (elevation * (π / 180))))
        (rollRotation (roll * (π / 180))) from rfl,
    multiplyMatrixVector_assoc, multiplyMatrixVector_assoc]

/-- The sine of `atan2 y x` is `y` over the radius, whenever the point is
not the origin. -/
lemma sin_atan2 {y x : ℝ} (h : x ≠ 0 ∨ y ≠ 0) :
    sin (atan2 y x) = y / sqrt (x ^ 2 + y ^ 2) := by
  have hsum : (0:ℝ) < x ^ 2 + y ^ 2 := by
    rcases h with hx | hy
    · nlinarith [sq_nonneg y, sq_abs x, abs_pos.mpr hx]
    · nlinarith [sq_nonneg x, sq_abs y, abs_pos.mpr hy]
  have hS : 0 < sqrt (x ^ 2 + y ^ 2) := sqrt_pos.mpr hsum
  rcases lt_trichotomy x 0 with hx | hx | hx
  · have hx' : x ≠ 0 := ne_of_lt hx
    have hdiv : sqrt (1 + (y / x) ^ 2) = sqrt (x ^ 2 + y ^ 2) / (-x) := by
      rw [show 1 + (y / x) ^ 2 = (x ^ 2 + y ^ 2) / x ^ 2 by field_simp,
        sqrt_div hsum.le, sqrt_sq_eq_abs, abs_of_neg hx]
    unfold atan2
    rw [if_neg (by linarith), if_pos hx]
    split_ifs with hy
    · rw [sin_add_pi, sin_arctan, hdiv]
      field_simp
      ring
    · rw [sin_sub_pi, sin_arctan, hdiv]
      field_simp
      ring
  · subst hx
    have hy : y ≠ 0 := by
      rcases h with hx | hy
      · exact absurd rfl hx
      · exact hy
    unfold atan2
    rw [if_neg (by norm_num), if_neg (by norm_num),
      show (0:ℝ) ^ 2 + y ^ 2 = y ^ 2 by ring, sqrt_sq_eq_abs]
    rcases lt_trichotomy y 0 with hy' | hy' | hy'
    · rw [if_neg (by linarith), if_pos hy', sin_neg, sin_pi_div_two, abs_of_neg hy']
      field_simp
    · exact absurd hy' hy
    · rw [if_pos hy', sin_pi_div_two, abs_of_pos hy']
      rw [div_self (ne_of_gt hy')]
  · have hdiv : sqrt (1 + (y / x) ^ 2) = sqrt (x ^ 2 + y ^ 2) / x := by
      rw [show 1 + (y / x) ^ 2 = (x ^ 2 + y ^ 2) / x ^ 2 by field_simp,
        sqrt_div hsum.le, sqrt_sq_eq_abs, abs_of_pos hx]
    unfold atan2
    rw [if_pos hx, sin_arctan, hdiv]
    field_simp

/-- The cosine of `atan2 y x` is `x` over the radius, whenever the point is
not the origin. -/
lemma cos_atan2 {y x : ℝ} (h : x ≠ 0 ∨ y ≠ 0) :
    cos (atan2 y x) = x / sqrt (x ^ 2 + y ^ 2) := by
  have hsum : (0:ℝ) < x ^ 2 + y ^ 2 := by
    rcases h with hx | hy
    · nlinarith [sq_nonneg y, sq_abs x, abs_pos.mpr hx]
    · nlinarith [sq_nonneg x, sq_abs y, abs_pos.mpr hy]
  have hS : 0 < sqrt (x ^ 2 + y ^ 2) := sqrt_pos.mpr hsum
  rcases lt_trichotomy x 0 with hx | hx | hx
  · have hx' : x ≠ 0 := ne_of_lt hx
    have hdiv : sqrt (1 + (y / x) ^ 2) = sqrt (x ^ 2 + y ^ 2) / (-x) := by
      rw [show 1 + (y / x) ^ 2 = (x ^ 2 + y ^ 2) / x ^ 2 by field_simp,
        sqrt_div hsum.le, sqrt_sq_eq_abs, abs_of_neg hx]
    unfold atan2
    rw [if_neg (by linarith), if_pos hx]
    split_ifs with hy
    · rw [cos_add_pi, cos_arctan, hdiv]
      field_simp
    · rw [cos_sub_pi, cos_arctan, hdiv]
      field_simp
  · subst hx
    unfold atan2
    rw [if_neg (by norm_num), if_neg (by norm_num)]
    rcases lt_trichotomy y 0 with hy' | hy' | hy'
    · rw [if_neg (by linarith), if_pos hy', cos_neg, cos_pi_div_two, zero_div]
    · rcases h with hx | hy
      · exact absurd rfl hx
      · exact absurd hy' hy
    · rw [if_pos hy', cos_pi_div_two, zero_div]
  · have hdiv : sqrt (1 + (y / x) ^ 2) = sqrt (x ^ 2 + y ^ 2) / x := by
      rw [show 1 + (y / x) ^ 2 = (x ^ 2 + y ^ 2) / x ^ 2 by field_simp,
        sqrt_div hsum.le, sqrt_sq_eq_abs, abs_of_pos hx]
    unfold atan2
    rw [if_pos hx, cos_arctan, hdiv]
    field_simp

/-- Unfolding lemma for the heading component of the extractor. -/
lemma heading_formula (north east : Vector3) :
    (calculateOrientationAngles north east).heading =
      (if atan2 north.x north.y * (180 / π) < 0
        then atan2 north.x north.y * (180 / π) + 360
        else atan2 north.x north.y * (180 / π)) := by
  simp [calculateOrientationAngles]

/-- Applying the composed matrix to the north reference vector `(0,0,-1)`
depends only on the heading and elevation angles. -/
lemma composed_apply_north (t1 t2 t3 : ℝ) :
    multiplyMatrixVector (composedMatrix t1 t2 t3) ⟨0, 0, -1⟩ =
      ⟨-sin (-t1) * cos t2, sin t2, -cos (-t1) * cos t2⟩ := by
  ext <;>
    simp only [composedMatrix, multiplyMatrices, headingRotation, elevationRotation,
      rollRotation, column0, column1, column2, dotProduct, multiplyMatrixVector] <;>
    ring

/-- The transformed north vector `R * (0,0,-1)` of `buildRotationMatrix` is a
unit vector (it is minus the third column of a rotation matrix). -/
lemma north_norm_one (a b g : ℝ) :
    (multiplyMatrixVector (buildRotationMatrix a b g) ⟨0, 0, -1⟩).x ^ 2 +
    (multiplyMatrixVector (buildRotationMatrix a b g) ⟨0, 0, -1⟩).y ^ 2 +
    (multiplyMatrixVector (buildRotationMatrix a b g) ⟨0, 0, -1⟩).z ^ 2 = 1 := by
  have hA := sin_sq_add_cos_sq a
  have hB := sin_sq_add_cos_sq b
  have hG := sin_sq_add_cos_sq g
  simp only [multiplyMatrixVector, buildRotationMatrix, dotProduct]
  linear_combination ((sin b) ^ 2 * (cos g) ^ 2 + (sin g) ^ 2) * hA +
    (cos g) ^ 2 * hB + hG

/-- Degrees-to-radians conversion inverts the radians-to-degrees conversion of
the extractor. -/
lemma deg_rad_cancel (u : ℝ) : u * (180 / π) * (π / 180) = u := by
  field_simp

/-- Claim C4 amended (general form): for a unit-length north vector away from
gimbal lock, reconstructing a matrix from the extracted angles and applying it
to the north reference vector `(0,0,-1)` recovers the original transformed
north vector, but expressed in the reconstruction's Y-up frame: the result is
exactly `(north.x, north.z, -north.y)`, the original vector under the fixed
frame change `(x, y, z) -> (x, z, -y)` — not the vector itself. -/
theorem roundtrip_recovers_north_up_to_frame_change (north east : Vector3)
    (hunit : north.x ^ 2 + north.y ^ 2 + north.z ^ 2 = 1)
    (hxy : 0 < north.x ^ 2 + north.y ^ 2) :
    multiplyMatrixVector
      (buildRotationMatrixFromAngles
        (calculateOrientationAngles north east).heading
        (calculateOrientationAngles north east).elevation
        (calculateOrientationAngles north east).roll)
      ⟨0, 0, -1⟩ = ⟨north.x, north.z, -north.y⟩ := by
  have hρ : 0 < sqrt (north.x ^ 2 + north.y ^ 2) := sqrt_pos.mpr hxy
  have hρsq : sqrt (north.x ^ 2 + north.y ^ 2) ^ 2 = north.x ^ 2 + north.y ^ 2 :=
    sq_sqrt hxy.le
  have hpair : north.y ≠ 0 ∨ north.x ≠ 0 := by
    by_contra hc
    push_neg at hc
    rw [hc.1, hc.2] at hxy
    norm_num at hxy
  -- sine and cosine of the pre-shift heading angle
  have hsinθ : sin (atan2 north.x north.y) =
      north.x / sqrt (north.x ^ 2 + north.y ^ 2) := by
    rw [sin_atan2 hpair, show north.y ^ 2 + north.x ^ 2 = north.x ^ 2 + north.y ^ 2 by ring]
  have hcosθ : cos (atan2 north.x north.y) =
      north.y / sqrt (north.x ^ 2 + north.y ^ 2) := by
    rw [cos_atan2 hpair, show north.y ^ 2 + north.x ^ 2 = north.x ^ 2 + north.y ^ 2 by ring]
  -- sine and cosine of the elevation angle
  have hradius : sqrt (north.x ^ 2 + north.y ^ 2) ^ 2 + north.z ^ 2 = 1 := by
    rw [hρsq]; linarith
  have hsinφ : sin (atan2 north.z (sqrt (north.x ^ 2 + north.y ^ 2))) = north.z := by
    rw [sin_atan2 (Or.inl hρ.ne'), hradius, sqrt_one, div_one]
  have hcosφ : cos (atan2 north.z (sqrt (north.x ^ 2 + north.y ^ 2))) =
      sqrt (north.x ^ 2 + north.y ^ 2) := by
    rw [cos_atan2 (Or.inl hρ.ne'), hradius, sqrt_one, div_one]
  -- the radian heading used by the reconstruction has the same sine/cosine
  have hsinh : sin ((calculateOrientationAngles north east).heading * (π / 180)) =
      sin (atan2 north.x north.y) := by
    rw [heading_formula]
    split_ifs
    · rw [show (atan2 north.x north.y * (180 / π) + 360) * (π / 180) =
          atan2 north.x north.y * (180 / π) * (π / 180) + 2 * π by ring,
        deg_rad_cancel, sin_add_two_pi]
    · rw [deg_rad_cancel]
  have hcosh : cos ((calculateOrientationAngles north east).heading * (π / 180)) =
      cos (atan2 north.x north.y) := by
    rw [heading_formula]
    split_ifs
    · rw [show (atan2 north.x north.y * (180 / π) + 360) * (π / 180) =
          atan2 north.x north.y * (180 / π) * (π / 180) + 2 * π by ring,
        deg_rad_cancel, cos_add_two_pi]
    · rw [deg_rad_cancel]
  rw [buildRotationMatrixFromAngles_eq_composed, composed_apply_north,
    elevation_formula, deg_rad_cancel, hsinφ, hcosφ, sin_neg, cos_neg, neg_neg,
    hsinh, hcosh, hsinθ, hcosθ]
  rw [Vector3.mk.injEq]
  refine ⟨?_, rfl, ?_⟩
  · field_simp
  · field_simp

/-- Witness for the amended C4 theorem at the unit north vector `(1,0,0)`. -/
theorem roundtrip_recovers_north_up_to_frame_change_witness :
    ((⟨1, 0, 0⟩ : Vector3).x ^ 2 + (⟨1, 0, 0⟩ : Vector3).y ^ 2 +
        (⟨1, 0, 0⟩ : Vector3).z ^ 2 = 1) ∧
    (0 < (⟨1, 0, 0⟩ : Vector3).x ^ 2 + (⟨1, 0, 0⟩ : Vector3).y ^ 2) ∧
    multiplyMatrixVector
      (buildRotationMatrixFromAngles
        (calculateOrientationAngles ⟨1, 0, 0⟩ ⟨0, 1, 0⟩).heading
        (calculateOrientationAngles ⟨1, 0, 0⟩ ⟨0, 1, 0⟩).elevation
        (calculateOrientationAngles ⟨1, 0, 0⟩ ⟨0, 1, 0⟩).roll)
      ⟨0, 0, -1⟩ = ⟨1, 0, -0⟩ :=
  ⟨by norm_num, by norm_num,
    roundtrip_recovers_north_up_to_frame_change ⟨1, 0, 0⟩ ⟨0, 1, 0⟩
      (by norm_num) (by norm_num)⟩

/-- The rotation matrix of the spec's round-trip sample: alpha = 30, beta =
20, gamma = 10 degrees, converted to radians by the caller as in
`handleOrientation`. -/
def sampleMatrix : Matrix3x3 :=
  buildRotationMatrix (30 * (π / 180)) (20 * (π / 180)) (10 * (π / 180))

/-- Transformed north reference vector of the sample. -/
def sampleNorth : Vector3 := multiplyMatrixVector sampleMatrix ⟨0, 0, -1⟩

/-- Transformed east reference vector of the sample. -/
def sampleEast : Vector3 := multiplyMatrixVector sampleMatrix ⟨1, 0, 0⟩

/-- Angles extracted from the sample's transformed vectors. -/
def sampleAngles : ExtractedAngles := calculateOrientationAngles sampleNorth sampleEast

/-- North reference vector transformed through the matrix reconstructed from
the sample's extracted angles. -/
def sampleReconNorth : Vector3 :=
  multiplyMatrixVector
    (buildRotationMatrixFromAngles sampleAngles.heading sampleAngles.elevation
      sampleAngles.roll)
    ⟨0, 0, -1⟩

/-- The y entry of the sample's transformed north vector, in closed trig form. -/
lemma sampleNorth_y :
    sampleNorth.y = cos (π / 6) * cos (π / 18) * sin (π / 9) - sin (π / 6) * sin (π / 18) := by
  simp only [sampleNorth, sampleMatrix, multiplyMatrixVector, dotProduct, buildRotationMatrix,
    show (30:ℝ) * (π / 180) = π / 6 by ring,
    show (20:ℝ) * (π / 180) = π / 9 by ring,
    show (10:ℝ) * (π / 180) = π / 18 by ring]
  ring

/-- The z entry of the sample's transformed north vector, in closed trig form. -/
lemma sampleNorth_z : sampleNorth.z = -(cos (π / 9) * cos (π / 18)) := by
  simp only [sampleNorth, sampleMatrix, multiplyMatrixVector, dotProduct, buildRotationMatrix,
    show (30:ℝ) * (π / 180) = π / 6 by ring,
    show (20:ℝ) * (π / 180) = π / 9 by ring,
    show (10:ℝ) * (π / 180) = π / 18 by ring]
  ring

/-- The sample's transformed north vector is a unit vector. -/
lemma sampleNorth_unit :
    sampleNorth.x ^ 2 + sampleNorth.y ^ 2 + sampleNorth.z ^ 2 = 1 := by
  simp only [sampleNorth, sampleMatrix]
  exact north_norm_one _ _ _

/-- The y component of the reconstructed north vector equals the z component
of the original transformed north vector (the reconstruction's Y-up frame
swaps the vertical axis). -/
lemma sampleReconNorth_y : sampleReconNorth.y = sampleNorth.z := by
  have hπu : π < 3.15 := pi_lt_d2
  have hπl : 3 < π := pi_gt_three
  have hcB : 0 < cos (π / 9) :=
    cos_pos_of_mem_Ioo ⟨by nlinarith, by nlinarith⟩
  have hcG : 0 < cos (π / 18) :=
    cos_pos_of_mem_Ioo ⟨by nlinarith, by nlinarith⟩
  have hzneg : sampleNorth.z < 0 := by
    rw [sampleNorth_z]
    nlinarith
  rw [sampleReconNorth, buildRotationMatrixFromAngles_eq_composed, composed_apply_north]
  show sin (sampleAngles.elevation * (π / 180)) = sampleNorth.z
  rw [show sampleAngles = calculateOrientationAngles sampleNorth sampleEast from rfl,
    elevation_formula, deg_rad_cancel, sin_atan2 (Or.inr hzneg.ne)]
  have hr : sqrt (sampleNorth.x ^ 2 + sampleNorth.y ^ 2) ^ 2 + sampleNorth.z ^ 2 = 1 := by
    rw [sq_sqrt (by positivity)]
    linarith [sampleNorth_unit]
  rw [hr, sqrt_one, div_one]

/-- Claim C4 counterexample: at alpha = 30, beta = 20, gamma = 10 degrees,
the y component of the reconstructed transform of the north reference vector
differs from the original transformed north vector's y component by far more
than 1e-3 (the reconstruction answers in a Y-up frame, so its y entry is the
original z entry, about -0.93, while the original y entry is about +0.20). -/
theorem roundtrip_componentwise_counterexample :
    ¬ (|sampleReconNorth.y - sampleNorth.y| ≤ 1e-3) := by
  intro hcontra
  rw [sampleReconNorth_y, sampleNorth_z, sampleNorth_y] at hcontra
  have habs := (abs_le.mp hcontra).1
  have hπu : π < 3.15 := pi_lt_d2
  have hπl : 3 < π := pi_gt_three
  have hcB_lb : 1 - (π / 9) ^ 2 / 2 ≤ cos (π / 9) := one_sub_sq_div_two_le_cos
  have hcG_lb : 1 - (π / 18) ^ 2 / 2 ≤ cos (π / 18) := one_sub_sq_div_two_le_cos
  have hsG_ub : sin (π / 18) < π / 18 := sin_lt (by positivity)
  have hsA : sin (π / 6) = 1 / 2 := sin_pi_div_six
  have hcA_nn : 0 ≤ cos (π / 6) := by
    rw [cos_pi_div_six]; positivity
  have hsB_nn : 0 ≤ sin (π / 9) :=
    sin_nonneg_of_nonneg_of_le_pi (by positivity) (by nlinarith)
  have h1 : (0.93 : ℝ) ≤ cos (π / 9) := by nlinarith
  have h2 : (0.98 : ℝ) ≤ cos (π / 18) := by nlinarith
  have h3 : (0.91 : ℝ) ≤ cos (π / 9) * cos (π / 18) := by nlinarith
  have h4 : 0 ≤ cos (π / 6) * cos (π / 18) * sin (π / 9) :=
    mul_nonneg (mul_nonneg hcA_nn (by linarith)) hsB_nn
  rw [hsA] at habs
  nlinarith

end

end DeviceOrientation
